import Mathlib

/-!
Shallow embedding of bino's `media_input` (src/media_input.h): the input
combiner that merges one or more media objects (one per URL) into a single
logical stereoscopic input with a unified stream catalog, stream selection,
stereo-layout handling, an asynchronous video read channel, seeking, and
open/close lifecycle.

The header in the repository is declaration-only; the inline member
functions (`video_streams`, `audio_streams`, `video_stream_name`,
`audio_stream_name`, `initial_skip`, `duration`) are embedded directly from
their code.  The out-of-line members (`open`, `get_video_stream`,
`select_video_stream`, `set_stereo_layout`, the read protocol, `seek`,
`close`) are modelled from the specification, as noted on each definition.
-/

set_option autoImplicit false

/-- Stereo layout tags of `video_frame::stereo_layout_t` (media_data.h). -/
inductive stereo_layout_t where
  | mono
  | separate
  | left_right
  | top_bottom
  | even_odd_rows
deriving DecidableEq, Inhabited

/-- Audio sample format tag (media_data.h `audio_blob`). -/
inductive sample_format_t where
  | u8
  | s16
  | f32
  | d64
deriving DecidableEq, Inhabited

/-- Video frame descriptor: dimensions, pixel aspect (as a rational pair),
stereo layout tag, swap-eyes flag, presentation time hint (microseconds) and
a validity flag used to signal end-of-stream. -/
structure video_frame where
  width : Nat
  height : Nat
  aspect_num : Nat
  aspect_den : Nat
  stereo_layout : stereo_layout_t
  stereo_layout_swap : Bool
  presentation_time : Int
  valid : Bool
deriving DecidableEq, Inhabited

/-- The invalid video frame, signalling end-of-stream. -/
def invalid_frame : video_frame :=
  { width := 0, height := 0, aspect_num := 0, aspect_den := 0,
    stereo_layout := stereo_layout_t.mono, stereo_layout_swap := false,
    presentation_time := 0, valid := false }

/-- Audio blob descriptor: channel count, sample rate, sample format and a
validity flag used to signal end-of-stream. -/
structure audio_blob where
  channels : Nat
  rate : Nat
  sample_fmt : sample_format_t
  valid : Bool
deriving DecidableEq, Inhabited

/-- The invalid audio blob, signalling end-of-stream. -/
def invalid_blob : audio_blob :=
  { channels := 0, rate := 0, sample_fmt := sample_format_t.u8, valid := false }

/-- A media object (one opened URL), the external collaborator of the
combiner.  It reports its own stream lists (name and descriptor template per
stream), duration, initial skip and metadata tags; `video_supply` models the
number of decoded frames still available per local video stream,
`active_video` / `active_audio` the locally selected streams, `seek_log` the
positions forwarded to it by `seek`, and `is_open` its open/closed state. -/
structure media_object where
  url : String
  video_stream_list : List (String × video_frame)
  audio_stream_list : List (String × audio_blob)
  video_supply : List Nat
  active_video : Nat
  active_audio : Nat
  duration : Int
  initial_skip : Int
  tag_names : List String
  tag_values : List String
  seek_log : List Int
  is_open : Bool
deriving DecidableEq, Inhabited

/-- Closing a media object marks it closed. -/
def media_object.close (s : media_object) : media_object :=
  { s with is_open := false }

/-- State of one asynchronous read channel: `Idle`, `Reading` (one operation
in flight), or the terminal `Ended` reached at end-of-stream. -/
inductive read_state where
  | Idle
  | Reading
  | Ended
deriving DecidableEq, Inhabited

/-- The `media_input` state: the private fields of the C++ class
(media_input.h lines 33-49) plus the modelled video read-channel state. -/
structure media_input where
  _id : String
  _media_objects : List media_object
  _tag_names : List String
  _tag_values : List String
  _video_stream_names : List String
  _audio_stream_names : List String
  _supports_stereo_layout_separate : Bool
  _active_video_stream : Int
  _active_audio_stream : Int
  _initial_skip : Int
  _duration : Int
  _video_frame : video_frame
  _audio_blob : audio_blob
  video_state : read_state
deriving DecidableEq, Inhabited

/-- Number of video streams: `return _video_stream_names.size();`
(media_input.h lines 78-81). -/
def media_input.video_streams (m : media_input) : Nat :=
  m._video_stream_names.length

/-- Number of audio streams: `return _audio_stream_names.size();`
(media_input.h lines 84-87). -/
def media_input.audio_streams (m : media_input) : Nat :=
  m._audio_stream_names.length

/-- Name of the given video stream:
`return _video_stream_names[video_stream];` (media_input.h lines 90-93).
The unchecked vector indexing is embedded as an Option-returning lookup
whose `none` branch is the out-of-range case. -/
def media_input.video_stream_name (m : media_input) (video_stream : Nat) : Option String :=
  m._video_stream_names[video_stream]?

/-- Name of the given audio stream:
`return _audio_stream_names[audio_stream];` (media_input.h lines 96-99). -/
def media_input.audio_stream_name (m : media_input) (audio_stream : Nat) : Option String :=
  m._audio_stream_names[audio_stream]?

/-- Initial portion of the input to skip: `return _initial_skip;`
(media_input.h lines 102-105). -/
def media_input.initial_skip (m : media_input) : Int :=
  m._initial_skip

/-- Total combined duration of this input: `return _duration;`
(media_input.h lines 108-111). -/
def media_input.duration (m : media_input) : Int :=
  m._duration

/-- Modelled from the spec: `video_frame_template()` (declared at
media_input.h line 115) reports the cached template for the active video
stream. -/
def media_input.video_frame_template (m : media_input) : video_frame :=
  m._video_frame

/-- Modelled from the spec: `audio_blob_template()` (declared at
media_input.h line 124) reports the cached template for the active audio
stream. -/
def media_input.audio_blob_template (m : media_input) : audio_blob :=
  m._audio_blob

/-- Per-source video stream counts, in source order. -/
def media_input.video_counts (m : media_input) : List Nat :=
  m._media_objects.map (fun s => s.video_stream_list.length)

/-- Per-source audio stream counts, in source order. -/
def media_input.audio_counts (m : media_input) : List Nat :=
  m._media_objects.map (fun s => s.audio_stream_list.length)

/-- The unified video catalog: each source's video stream descriptors,
concatenated in source-open order. -/
def media_input.video_catalog (m : media_input) : List video_frame :=
  (m._media_objects.map (fun s => s.video_stream_list.map Prod.snd)).flatten

/-- The unified audio catalog: each source's audio stream descriptors,
concatenated in source-open order. -/
def media_input.audio_catalog (m : media_input) : List audio_blob :=
  (m._media_objects.map (fun s => s.audio_stream_list.map Prod.snd)).flatten

/-- Resolve a global index against a list of per-source counts into a
(source index, local index) pair; `none` when out of range. -/
def locate : List Nat → Nat → Option (Nat × Nat)
  | [], _ => none
  | c :: cs, g =>
    if g < c then some (0, g)
    else (locate cs (g - c)).map (fun p => (p.1 + 1, p.2))

/-- Modelled from the spec: `get_video_stream` (declared at media_input.h
line 52) finds the media object and its local stream index for a given
global video stream number, by pure lookup over the concatenated catalog. -/
def media_input.get_video_stream (m : media_input) (stream : Nat) : Option (Nat × Nat) :=
  locate m.video_counts stream

/-- Modelled from the spec: `get_audio_stream` (declared at media_input.h
line 53), the audio analogue of `get_video_stream`. -/
def media_input.get_audio_stream (m : media_input) (stream : Nat) : Option (Nat × Nat) :=
  locate m.audio_counts stream

/-- Error cases of an open attempt (spec section 7): a URL failed to open,
zero sources were supplied, or the sources cannot be reconciled. -/
inductive open_error where
  | zero_sources
  | url_failed
  | incompatible
deriving DecidableEq, Inhabited

/-- A failed open attempt: the error, together with the sources that had
already been opened during the attempt and were closed while unwinding. -/
structure open_failure where
  error : open_error
  closed_sources : List media_object
deriving DecidableEq, Inhabited

/-- Modelled from the spec: `_supports_stereo_layout_separate` is true only
when exactly two video streams exist and they originate from two distinct
sources (each source contributes at most one). -/
def supports_separate (srcs : List media_object) : Bool :=
  decide ((srcs.map (fun s => s.video_stream_list.length)).sum = 2) &&
    srcs.all (fun s => decide (s.video_stream_list.length ≤ 1))

/-- Minimum of a list of durations; `0` for the (excluded) empty case. -/
def min_duration : List Int → Int
  | [] => 0
  | d :: ds => ds.foldl min d

/-- Maximum of a list of initial skips; `0` for the (excluded) empty case. -/
def max_skip : List Int → Int
  | [] => 0
  | d :: ds => ds.foldl max d

/-- Modelled from the spec: the successfully opened `media_input` built from
an ordered list of opened sources — unified catalogs by concatenation in URL
order, aggregated tags, max initial skip / min duration, the separate-layout
support flag, and the first streams selected with their templates
materialized. -/
def media_input.build (id : String) (srcs : List media_object) : media_input :=
  { _id := id,
    _media_objects := srcs,
    _tag_names := (srcs.map (fun s => s.tag_names)).flatten,
    _tag_values := (srcs.map (fun s => s.tag_values)).flatten,
    _video_stream_names := (srcs.map (fun s => s.video_stream_list.map Prod.fst)).flatten,
    _audio_stream_names := (srcs.map (fun s => s.audio_stream_list.map Prod.fst)).flatten,
    _supports_stereo_layout_separate := supports_separate srcs,
    _active_video_stream :=
      if (srcs.map (fun s => s.video_stream_list.length)).sum = 0 then -1 else 0,
    _active_audio_stream :=
      if (srcs.map (fun s => s.audio_stream_list.length)).sum = 0 then -1 else 0,
    _initial_skip := max_skip (srcs.map (fun s => s.initial_skip)),
    _duration := min_duration (srcs.map (fun s => s.duration)),
    _video_frame :=
      ((srcs.map (fun s => s.video_stream_list.map Prod.snd)).flatten).headD invalid_frame,
    _audio_blob :=
      ((srcs.map (fun s => s.audio_stream_list.map Prod.snd)).flatten).headD invalid_blob,
    video_state := read_state.Idle }

/-- Open one media source per URL in order, accumulating the opened sources;
on the first failing URL, return the sources opened so far (to be closed
while unwinding).  The per-URL opener `ou` stands for the external media
source collaborator. -/
def collect_sources (ou : String → Option media_object) :
    List String → List media_object → Except (List media_object) (List media_object)
  | [], acc => Except.ok acc
  | u :: us, acc =>
    match ou u with
    | none => Except.error acc
    | some s => collect_sources ou us (acc ++ [s])

/-- Modelled from the spec: `open` (declared at media_input.h line 64).
For each URL, instantiate and open a media source; if any fails, the whole
operation fails and every already-opened source is closed.  Also fails on
zero URLs and when the opened sources cannot be reconciled (the
reconciliation predicate `rc` is the implementation-chosen compatibility
check).  On success the combined input is built; on failure no input
survives, only the record of the closed sources. -/
def open_input (ou : String → Option media_object) (rc : List media_object → Bool)
    (urls : List String) : Except open_failure media_input :=
  match urls with
  | [] => Except.error { error := open_error.zero_sources, closed_sources := [] }
  | _ :: _ =>
    match collect_sources ou urls [] with
    | Except.error acc =>
        Except.error { error := open_error.url_failed,
                       closed_sources := acc.map media_object.close }
    | Except.ok srcs =>
        if rc srcs then
          Except.ok (media_input.build (String.intercalate "/" urls) srcs)
        else
          Except.error { error := open_error.incompatible,
                         closed_sources := srcs.map media_object.close }

/-- Instruct source `i` to activate its local video stream `j`. -/
def set_active_video : List media_object → Nat → Nat → List media_object
  | [], _, _ => []
  | s :: ss, 0, j => { s with active_video := j } :: ss
  | s :: ss, i + 1, j => s :: set_active_video ss i j

/-- Instruct source `i` to activate its local audio stream `j`. -/
def set_active_audio : List media_object → Nat → Nat → List media_object
  | [], _, _ => []
  | s :: ss, 0, j => { s with active_audio := j } :: ss
  | s :: ss, i + 1, j => s :: set_active_audio ss i j

/-- Descriptor template of local video stream `j` of source `i`. -/
def video_stream_template (srcs : List media_object) (i j : Nat) : video_frame :=
  match srcs[i]? with
  | none => invalid_frame
  | some s =>
    match (s.video_stream_list.map Prod.snd)[j]? with
    | none => invalid_frame
    | some d => d

/-- Descriptor template of local audio stream `j` of source `i`. -/
def audio_stream_template (srcs : List media_object) (i j : Nat) : audio_blob :=
  match srcs[i]? with
  | none => invalid_blob
  | some s =>
    match (s.audio_stream_list.map Prod.snd)[j]? with
    | none => invalid_blob
    | some d => d

/-- Modelled from the spec: `select_video_stream` (declared at media_input.h
line 131) resolves the global number via the resolver, activates the local
stream on the owning source, rebuilds the video template and updates the
active index; an unresolvable number is a programmer error, modelled as a
no-op. -/
def media_input.select_video_stream (m : media_input) (video_stream : Nat) : media_input :=
  match m.get_video_stream video_stream with
  | none => m
  | some (i, j) =>
    { m with
      _media_objects := set_active_video m._media_objects i j,
      _active_video_stream := Int.ofNat video_stream,
      _video_frame := video_stream_template m._media_objects i j }

/-- Modelled from the spec: `select_audio_stream` (declared at media_input.h
line 132), the audio analogue of `select_video_stream`. -/
def media_input.select_audio_stream (m : media_input) (audio_stream : Nat) : media_input :=
  match m.get_audio_stream audio_stream with
  | none => m
  | some (i, j) =>
    { m with
      _media_objects := set_active_audio m._media_objects i j,
      _active_audio_stream := Int.ofNat audio_stream,
      _audio_blob := audio_stream_template m._media_objects i j }

/-- Modelled from the spec: `set_stereo_layout` (media_input.h lines
134-136).  The `separate` layout requires `_supports_stereo_layout_separate`;
other layouts are accepted.  On refusal, `false` is returned and no change is
made; on success the layout tag and swap flag of the cached video template
are updated (no data is re-read) and `true` is returned. -/
def media_input.set_stereo_layout (m : media_input) (layout : stereo_layout_t)
    (swap : Bool) : Bool × media_input :=
  let supported :=
    match layout with
    | stereo_layout_t.separate => m._supports_stereo_layout_separate
    | _ => true
  if supported then
    (true,
     { m with
       _video_frame :=
         { m._video_frame with stereo_layout := layout, stereo_layout_swap := swap } })
  else
    (false, m)

/-- The sources participating in a video read: both sources in `separate`
layout, otherwise the source owning the active video stream. -/
def media_input.participating (m : media_input) : List Nat :=
  if m._video_frame.stereo_layout = stereo_layout_t.separate then [0, 1]
  else
    match m._active_video_stream with
    | Int.ofNat n =>
      match m.get_video_stream n with
      | some (i, _) => [i]
      | none => []
    | _ => []

/-- Does source `i` still have a decoded frame available on its active
local video stream? -/
def has_frame (srcs : List media_object) (i : Nat) : Bool :=
  match srcs[i]? with
  | none => false
  | some s =>
    match s.video_supply[s.active_video]? with
    | none => false
    | some k => decide (0 < k)

/-- Consume one decoded frame from source `i`'s active local video stream. -/
def consume_frame : List media_object → Nat → List media_object
  | [], _ => []
  | s :: ss, 0 =>
    let n := s.video_supply.getD s.active_video 0
    { s with video_supply := s.video_supply.set s.active_video (n - 1) } :: ss
  | s :: ss, i + 1 => s :: consume_frame ss i

/-- Modelled from the spec: `start_video_frame_read` (declared at
media_input.h line 140).  Legal only from `Idle` (dispatches the read and
moves to `Reading`) or from the terminal `Ended` state (where the channel
stays `Ended`); a second start while `Reading` is a protocol violation,
modelled as `none`. -/
def media_input.start_video_frame_read (m : media_input) : Option media_input :=
  match m.video_state with
  | read_state.Idle => some { m with video_state := read_state.Reading }
  | read_state.Reading => none
  | read_state.Ended => some m

/-- Modelled from the spec: `finish_video_frame_read` (media_input.h lines
141-143).  Legal only with a read in flight (or in the terminal `Ended`
state, where it keeps returning the invalid frame).  From `Reading`: if
every participating source still has a frame, one frame is consumed from
each, a valid frame carrying the template's properties is returned and the
channel returns to `Idle`; otherwise (end-of-stream, including a mismatched
pair) the invalid frame is returned and the channel moves to `Ended`. -/
def media_input.finish_video_frame_read (m : media_input) :
    Option (video_frame × media_input) :=
  match m.video_state with
  | read_state.Idle => none
  | read_state.Ended => some (invalid_frame, m)
  | read_state.Reading =>
    let idxs := m.participating
    if !idxs.isEmpty && idxs.all (has_frame m._media_objects) then
      some ({ m._video_frame with valid := true },
            { m with _media_objects := idxs.foldl consume_frame m._media_objects,
                     video_state := read_state.Idle })
    else
      some (invalid_frame, { m with video_state := read_state.Ended })

/-- One `start_video_frame_read(); finish_video_frame_read()` pair. -/
def media_input.read_pair (m : media_input) : Option (video_frame × media_input) :=
  (m.start_video_frame_read).bind media_input.finish_video_frame_read

/-- The frame returned by the `k`-th subsequent start/finish pair (0-based),
`none` if a protocol violation occurs on the way. -/
def reads_from : media_input → Nat → Option video_frame
  | m, 0 => (m.read_pair).map Prod.fst
  | m, k + 1 =>
    match m.read_pair with
    | none => none
    | some (_, m2) => reads_from m2 k

/-- Modelled from the spec: `seek` (media_input.h lines 152-158) forwards
the position in microseconds to every open source unconditionally, with no
range validation and no synchronous error; nothing else changes. -/
def media_input.seek (m : media_input) (pos : Int) : media_input :=
  { m with
    _media_objects := m._media_objects.map (fun s => { s with seek_log := s.seek_log ++ [pos] }) }

/-- The never-opened (constructor) state of a `media_input`. -/
def media_input.initial : media_input :=
  { _id := "",
    _media_objects := [],
    _tag_names := [],
    _tag_values := [],
    _video_stream_names := [],
    _audio_stream_names := [],
    _supports_stereo_layout_separate := false,
    _active_video_stream := -1,
    _active_audio_stream := -1,
    _initial_skip := 0,
    _duration := 0,
    _video_frame := invalid_frame,
    _audio_blob := invalid_blob,
    video_state := read_state.Idle }

/-- Modelled from the spec: `close` (media_input.h lines 164-165) closes and
releases every source and resets the input to its never-opened state; safe
to call without a prior open. -/
def media_input.close (_ : media_input) : media_input :=
  media_input.initial

/-! Resolver lemmas. -/

theorem locate_isSome_iff : ∀ (cs : List Nat) (g : Nat), (locate cs g).isSome ↔ g < cs.sum
  | [], g => by simp [locate]
  | c :: cs, g => by
    simp only [locate, List.sum_cons]
    by_cases h : g < c
    · rw [if_pos h]
      simp only [Option.isSome_some, true_iff]
      omega
    · rw [if_neg h, Option.isSome_map']
      rw [locate_isSome_iff cs (g - c)]
      omega

theorem locate_spec : ∀ (cs : List Nat) (g i j : Nat), locate cs g = some (i, j) →
    ∃ c, cs[i]? = some c ∧ j < c ∧ g = (cs.take i).sum + j
  | [], g, i, j => by simp [locate]
  | c :: cs, g, i, j => by
    intro he
    simp only [locate] at he
    by_cases h : g < c
    · rw [if_pos h] at he
      simp only [Option.some.injEq, Prod.mk.injEq] at he
      obtain ⟨rfl, rfl⟩ := he
      exact ⟨c, by simp, h, by simp⟩
    · rw [if_neg h] at he
      cases hopt : locate cs (g - c) with
      | none => rw [hopt] at he; simp at he
      | some p =>
        rw [hopt] at he
        simp only [Option.map_some', Option.some.injEq, Prod.mk.injEq] at he
        obtain ⟨hi, hj⟩ := he
        obtain ⟨c0, hc0, hjc, hg⟩ := locate_spec cs (g - c) p.1 p.2 (by rw [hopt])
        subst hi
        subst hj
        refine ⟨c0, by simpa using hc0, hjc, ?_⟩
        simp only [List.take_succ_cons, List.sum_cons]
        omega

theorem locate_at : ∀ (cs : List Nat) (i j c : Nat), cs[i]? = some c → j < c →
    locate cs ((cs.take i).sum + j) = some (i, j)
  | [], i, j, c => by simp
  | c0 :: cs, 0, j, c => by
    intro hc hj
    rw [List.getElem?_cons_zero, Option.some.injEq] at hc
    subst hc
    simp only [List.take, List.sum_nil, Nat.zero_add, locate]
    rw [if_pos hj]
  | c0 :: cs, i + 1, j, c => by
    intro hc hj
    rw [List.getElem?_cons_succ] at hc
    have ih := locate_at cs i j c hc hj
    simp only [locate, List.take_succ_cons, List.sum_cons]
    rw [if_neg (by omega)]
    have harith : c0 + (List.take i cs).sum + j - c0 = (cs.take i).sum + j := by omega
    rw [harith, ih]
    rfl

theorem locate_inj (cs : List Nat) (g1 g2 : Nat) (p : Nat × Nat)
    (h1 : locate cs g1 = some p) (h2 : locate cs g2 = some p) : g1 = g2 := by
  obtain ⟨c1, _, _, hg1⟩ := locate_spec cs g1 p.1 p.2 (by rw [h1])
  obtain ⟨c2, _, _, hg2⟩ := locate_spec cs g2 p.1 p.2 (by rw [h2])
  omega

theorem flatten_locate {α : Type} : ∀ (L : List (List α)) (g i j : Nat),
    locate (L.map List.length) g = some (i, j) →
    ∃ l a, L[i]? = some l ∧ l[j]? = some a ∧ L.flatten[g]? = some a
  | [], g, i, j => by simp [locate]
  | l :: L, g, i, j => by
    intro he
    simp only [List.map_cons, locate] at he
    by_cases h : g < l.length
    · rw [if_pos h] at he
      simp only [Option.some.injEq, Prod.mk.injEq] at he
      obtain ⟨rfl, rfl⟩ := he
      refine ⟨l, l.get ⟨g, h⟩, by simp, by simp, ?_⟩
      rw [List.flatten_cons, List.getElem?_append_left h]
      simp
    · rw [if_neg h] at he
      cases hopt : locate (L.map List.length) (g - l.length) with
      | none => rw [hopt] at he; simp at he
      | some p =>
        rw [hopt] at he
        simp only [Option.map_some', Option.some.injEq, Prod.mk.injEq] at he
        obtain ⟨hi, hj⟩ := he
        obtain ⟨l2, a, hl2, ha, hfl⟩ := flatten_locate L (g - l.length) p.1 p.2 (by rw [hopt])
        subst hi
        subst hj
        refine ⟨l2, a, by simpa using hl2, ha, ?_⟩
        rw [List.flatten_cons, List.getElem?_append_right (by omega)]
        exact hfl

theorem video_counts_as_lengths (m : media_input) :
    m.video_counts =
      (m._media_objects.map (fun s => s.video_stream_list.map Prod.snd)).map List.length := by
  simp [media_input.video_counts, List.map_map, Function.comp_def]

theorem audio_counts_as_lengths (m : media_input) :
    m.audio_counts =
      (m._media_objects.map (fun s => s.audio_stream_list.map Prod.snd)).map List.length := by
  simp [media_input.audio_counts, List.map_map, Function.comp_def]

theorem video_catalog_length (m : media_input) :
    m.video_catalog.length = m.video_counts.sum := by
  rw [media_input.video_catalog, List.length_flatten, ← video_counts_as_lengths]

theorem audio_catalog_length (m : media_input) :
    m.audio_catalog.length = m.audio_counts.sum := by
  rw [media_input.audio_catalog, List.length_flatten, ← audio_counts_as_lengths]

/-! Open-time lemmas. -/

/-- Coherence between the catalog name vectors and the per-source stream
counts, as established by a successful open. -/
def media_input.counts_ok (m : media_input) : Prop :=
  m._video_stream_names.length = m.video_counts.sum ∧
  m._audio_stream_names.length = m.audio_counts.sum

theorem build_counts_ok (id : String) (srcs : List media_object) :
    (media_input.build id srcs).counts_ok := by
  refine ⟨?_, ?_⟩ <;>
    simp [media_input.counts_ok, media_input.build, media_input.video_counts,
      media_input.audio_counts, List.length_flatten, List.map_map, Function.comp_def]

theorem open_input_ok_elim (ou : String → Option media_object)
    (rc : List media_object → Bool) (urls : List String) (m : media_input)
    (h : open_input ou rc urls = Except.ok m) :
    ∃ srcs, collect_sources ou urls [] = Except.ok srcs ∧ rc srcs = true ∧
      m = media_input.build (String.intercalate "/" urls) srcs := by
  cases urls with
  | nil => simp [open_input] at h
  | cons u us =>
    simp only [open_input] at h
    cases hc : collect_sources ou (u :: us) [] with
    | error acc => rw [hc] at h; simp at h
    | ok srcs =>
      rw [hc] at h
      by_cases hrc : rc srcs = true
      · simp only [hrc, if_true, Except.ok.injEq] at h
        exact ⟨srcs, rfl, hrc, h.symm⟩
      · simp [hrc] at h

theorem collect_sources_one (ou : String → Option media_object) (u : String)
    (srcs : List media_object) (h : collect_sources ou [u] [] = Except.ok srcs) :
    ∃ s, ou u = some s ∧ srcs = [s] := by
  cases hou : ou u with
  | none => simp [collect_sources, hou] at h
  | some s =>
    simp only [collect_sources, hou, List.nil_append, Except.ok.injEq] at h
    exact ⟨s, rfl, h.symm⟩

theorem collect_sources_two (ou : String → Option media_object) (u1 u2 : String)
    (srcs : List media_object) (h : collect_sources ou [u1, u2] [] = Except.ok srcs) :
    ∃ s1 s2, ou u1 = some s1 ∧ ou u2 = some s2 ∧ srcs = [s1, s2] := by
  cases hou1 : ou u1 with
  | none => simp [collect_sources, hou1] at h
  | some s1 =>
    cases hou2 : ou u2 with
    | none => simp [collect_sources, hou1, hou2] at h
    | some s2 =>
      simp only [collect_sources, hou1, hou2, List.nil_append, Except.ok.injEq] at h
      exact ⟨s1, s2, rfl, rfl, h.symm⟩

theorem collect_sources_fails (ou : String → Option media_object) :
    ∀ (urls : List String) (acc : List media_object),
      (∃ u ∈ urls, ou u = none) →
      ∃ acc2, collect_sources ou urls acc = Except.error acc2
  | [], acc => by simp
  | u :: us, acc => by
    intro hex
    cases hou : ou u with
    | none => exact ⟨acc, by simp [collect_sources, hou]⟩
    | some s =>
      obtain ⟨u2, hu2, hnone⟩ := hex
      rcases List.mem_cons.mp hu2 with rfl | hmem
      · rw [hou] at hnone
        cases hnone
      · obtain ⟨acc2, hacc⟩ := collect_sources_fails ou us (acc ++ [s]) ⟨u2, hmem, hnone⟩
        exact ⟨acc2, by simp [collect_sources, hou, hacc]⟩

theorem closed_sources_all_closed (l : List media_object) :
    ∀ s ∈ l.map media_object.close, s.is_open = false := by
  intro s hs
  obtain ⟨t, _, rfl⟩ := List.mem_map.mp hs
  rfl

/-! Concrete fixtures: a two-file stereoscopic input. -/

/-- Left-eye video descriptor template. -/
def frame_l : video_frame :=
  { width := 1920, height := 1080, aspect_num := 16, aspect_den := 9,
    stereo_layout := stereo_layout_t.mono, stereo_layout_swap := false,
    presentation_time := 0, valid := true }

/-- Right-eye video descriptor template. -/
def frame_r : video_frame :=
  { frame_l with presentation_time := 1 }

/-- Left-eye source: one video stream, one audio stream, 10 s. -/
def src_l : media_object :=
  { url := "left.mp4",
    video_stream_list := [("left video", frame_l)],
    audio_stream_list :=
      [("left audio",
        { channels := 2, rate := 48000, sample_fmt := sample_format_t.s16, valid := true })],
    video_supply := [2], active_video := 0, active_audio := 0,
    duration := 10000000, initial_skip := 100,
    tag_names := ["title"], tag_values := ["left eye"], seek_log := [], is_open := true }

/-- Right-eye source: one video stream, no audio, 8 s. -/
def src_r : media_object :=
  { url := "right.mp4",
    video_stream_list := [("right video", frame_r)],
    audio_stream_list := [],
    video_supply := [1], active_video := 0, active_audio := 0,
    duration := 8000000, initial_skip := 200,
    tag_names := [], tag_values := [], seek_log := [], is_open := true }

/-- A URL opener that knows the two eye files. -/
def two_eye_opener : String → Option media_object :=
  fun u =>
    if u = "left.mp4" then some src_l
    else if u = "right.mp4" then some src_r
    else none

/-- A reconciliation predicate accepting every combination. -/
def accept_all : List media_object → Bool :=
  fun _ => true

/-- The input combined from the two eye sources. -/
def input2 : media_input :=
  media_input.build "left.mp4/right.mp4" [src_l, src_r]

/-! Claims. -/

/-- Claim C1: for an input opened from exactly two sources, `duration()` is
the minimum of the two sources' durations and `initial_skip()` the maximum
of their initial skips; for an input opened from exactly one source, both
values are copied from that source; and both values are immutable after
open — untouched by stream selection, layout changes, seeking and the read
protocol. -/
theorem claim_C1 :
    (∀ (ou : String → Option media_object) (rc : List media_object → Bool)
       (u : String) (m : media_input), open_input ou rc [u] = Except.ok m →
       ∃ s, ou u = some s ∧ m.duration = s.duration ∧ m.initial_skip = s.initial_skip) ∧
    (∀ (ou : String → Option media_object) (rc : List media_object → Bool)
       (u1 u2 : String) (m : media_input), open_input ou rc [u1, u2] = Except.ok m →
       ∃ s1 s2, ou u1 = some s1 ∧ ou u2 = some s2 ∧
         m.duration = min s1.duration s2.duration ∧
         m.initial_skip = max s1.initial_skip s2.initial_skip) ∧
    (∀ (m : media_input) (n : Nat),
       (m.select_video_stream n).duration = m.duration ∧
       (m.select_video_stream n).initial_skip = m.initial_skip ∧
       (m.select_audio_stream n).duration = m.duration ∧
       (m.select_audio_stream n).initial_skip = m.initial_skip) ∧
    (∀ (m : media_input) (layout : stereo_layout_t) (sw : Bool),
       ((m.set_stereo_layout layout sw).2).duration = m.duration ∧
       ((m.set_stereo_layout layout sw).2).initial_skip = m.initial_skip) ∧
    (∀ (m : media_input) (pos : Int),
       (m.seek pos).duration = m.duration ∧ (m.seek pos).initial_skip = m.initial_skip) ∧
    (∀ (m m2 : media_input), m.start_video_frame_read = some m2 →
       m2.duration = m.duration ∧ m2.initial_skip = m.initial_skip) ∧
    (∀ (m m2 : media_input) (f : video_frame),
       m.finish_video_frame_read = some (f, m2) →
       m2.duration = m.duration ∧ m2.initial_skip = m.initial_skip) := by
  refine ⟨?_, ?_, ?_, ?_, ?_, ?_, ?_⟩
  · intro ou rc u m h
    obtain ⟨srcs, hcol, _, rfl⟩ := open_input_ok_elim ou rc [u] m h
    obtain ⟨s, hou, rfl⟩ := collect_sources_one ou u srcs hcol
    exact ⟨s, hou, rfl, rfl⟩
  · intro ou rc u1 u2 m h
    obtain ⟨srcs, hcol, _, rfl⟩ := open_input_ok_elim ou rc [u1, u2] m h
    obtain ⟨s1, s2, hou1, hou2, rfl⟩ := collect_sources_two ou u1 u2 srcs hcol
    exact ⟨s1, s2, hou1, hou2, rfl, rfl⟩
  · intro m n
    refine ⟨?_, ?_, ?_, ?_⟩
    · cases hg : m.get_video_stream n with
      | none => simp [media_input.select_video_stream, hg, media_input.duration]
      | some p =>
        obtain ⟨i, j⟩ := p
        simp [media_input.select_video_stream, hg, media_input.duration]
    · cases hg : m.get_video_stream n with
      | none => simp [media_input.select_video_stream, hg, media_input.initial_skip]
      | some p =>
        obtain ⟨i, j⟩ := p
        simp [media_input.select_video_stream, hg, media_input.initial_skip]
    · cases hg : m.get_audio_stream n with
      | none => simp [media_input.select_audio_stream, hg, media_input.duration]
      | some p =>
        obtain ⟨i, j⟩ := p
        simp [media_input.select_audio_stream, hg, media_input.duration]
    · cases hg : m.get_audio_stream n with
      | none => simp [media_input.select_audio_stream, hg, media_input.initial_skip]
      | some p =>
        obtain ⟨i, j⟩ := p
        simp [media_input.select_audio_stream, hg, media_input.initial_skip]
  · intro m layout sw
    simp only [media_input.set_stereo_layout]
    refine ⟨?_, ?_⟩ <;> (split <;> rfl)
  · intro m pos
    exact ⟨rfl, rfl⟩
  · intro m m2 h
    unfold media_input.start_video_frame_read at h
    cases hv : m.video_state
    · rw [hv] at h
      simp only [Option.some.injEq] at h
      subst h
      exact ⟨rfl, rfl⟩
    · rw [hv] at h
      simp at h
    · rw [hv] at h
      simp only [Option.some.injEq] at h
      subst h
      exact ⟨rfl, rfl⟩
  · intro m m2 f h
    unfold media_input.finish_video_frame_read at h
    cases hv : m.video_state
    · rw [hv] at h
      simp at h
    · rw [hv] at h
      simp only [] at h
      split at h
      · simp only [Option.some.injEq, Prod.mk.injEq] at h
        obtain ⟨hf, hm⟩ := h
        subst hm
        exact ⟨rfl, rfl⟩
      · simp only [Option.some.injEq, Prod.mk.injEq] at h
        obtain ⟨hf, hm⟩ := h
        subst hm
        exact ⟨rfl, rfl⟩
    · rw [hv] at h
      simp only [Option.some.injEq, Prod.mk.injEq] at h
      obtain ⟨hf, hm⟩ := h
      subst hm
      exact ⟨rfl, rfl⟩

/-- Witness for C1 at the two-file fixture: 10,000,000 and 8,000,000 µs
sources combine to the minimum duration and maximum initial skip. -/
theorem claim_C1_witness :
    ∃ s1 s2, two_eye_opener "left.mp4" = some s1 ∧ two_eye_opener "right.mp4" = some s2 ∧
      input2.duration = min s1.duration s2.duration ∧
      input2.initial_skip = max s1.initial_skip s2.initial_skip :=
  claim_C1.2.1 two_eye_opener accept_all "left.mp4" "right.mp4" input2 rfl

/-- Claim C2: whenever `_supports_stereo_layout_separate` is false,
`set_stereo_layout(separate, swap)` returns false and leaves the entire
state unchanged; the flag is false in particular for any input built from a
single source, and from two sources that do not each contribute exactly one
video stream. -/
theorem claim_C2 :
    (∀ (m : media_input) (sw : Bool), m._supports_stereo_layout_separate = false →
       m.set_stereo_layout stereo_layout_t.separate sw = (false, m)) ∧
    (∀ (id : String) (s : media_object),
       (media_input.build id [s])._supports_stereo_layout_separate = false) ∧
    (∀ (id : String) (s1 s2 : media_object),
       ¬(s1.video_stream_list.length = 1 ∧ s2.video_stream_list.length = 1) →
       (media_input.build id [s1, s2])._supports_stereo_layout_separate = false) := by
  refine ⟨?_, ?_, ?_⟩
  · intro m sw h
    simp [media_input.set_stereo_layout, h]
  · intro id s
    simp only [media_input.build, supports_separate, List.map_cons, List.map_nil,
      List.sum_cons, List.sum_nil, List.all_cons, List.all_nil, Bool.and_true,
      Bool.and_eq_false_iff, decide_eq_false_iff_not]
    omega
  · intro id s1 s2 hne
    simp only [media_input.build, supports_separate, List.map_cons, List.map_nil,
      List.sum_cons, List.sum_nil, List.all_cons, List.all_nil, Bool.and_true,
      Bool.and_eq_false_iff, decide_eq_false_iff_not]
    omega

/-- Witness for C2: the never-opened input does not support the separate
layout, so the call is refused without any state change. -/
theorem claim_C2_witness :
    media_input.initial.set_stereo_layout stereo_layout_t.separate true =
      (false, media_input.initial) :=
  claim_C2.1 media_input.initial true rfl

/-- Claim C3: `open` is atomic on failure — on an empty URL list, on any
URL that fails to open, and on a failed reconciliation it returns an
`open_failure` (never a `media_input`), and every source opened during the
attempt appears closed in the failure record. -/
theorem claim_C3 :
    (∀ (ou : String → Option media_object) (rc : List media_object → Bool)
       (urls : List String) (f : open_failure),
       open_input ou rc urls = Except.error f →
       ∀ s ∈ f.closed_sources, s.is_open = false) ∧
    (∀ (ou : String → Option media_object) (rc : List media_object → Bool),
       ∃ f, open_input ou rc [] = Except.error f ∧ f.error = open_error.zero_sources) ∧
    (∀ (ou : String → Option media_object) (rc : List media_object → Bool)
       (urls : List String), (∃ u ∈ urls, ou u = none) →
       ∃ f, open_input ou rc urls = Except.error f) ∧
    (∀ (ou : String → Option media_object) (rc : List media_object → Bool)
       (urls : List String) (srcs : List media_object), urls ≠ [] →
       collect_sources ou urls [] = Except.ok srcs → rc srcs = false →
       ∃ f, open_input ou rc urls = Except.error f) := by
  refine ⟨?_, ?_, ?_, ?_⟩
  · intro ou rc urls f h
    cases urls with
    | nil =>
      simp only [open_input, Except.error.injEq] at h
      subst h
      simp
    | cons u us =>
      unfold open_input at h
      cases hc : collect_sources ou (u :: us) [] with
      | error acc =>
        rw [hc] at h
        simp only [Except.error.injEq] at h
        subst h
        exact closed_sources_all_closed acc
      | ok srcs =>
        rw [hc] at h
        by_cases hrc : rc srcs = true
        · simp [hrc] at h
        · simp only [Bool.not_eq_true] at hrc
          simp only [hrc, Bool.false_eq_true, if_false, Except.error.injEq] at h
          subst h
          exact closed_sources_all_closed srcs
  · intro ou rc
    exact ⟨_, rfl, rfl⟩
  · intro ou rc urls hex
    obtain ⟨u2, hu2, hnone⟩ := hex
    cases urls with
    | nil => cases hu2
    | cons u us =>
      obtain ⟨acc2, hacc⟩ := collect_sources_fails ou (u :: us) [] ⟨u2, hu2, hnone⟩
      exact ⟨{ error := open_error.url_failed,
               closed_sources := acc2.map media_object.close },
             by simp [open_input, hacc]⟩
  · intro ou rc urls srcs hne hcol hrc
    cases urls with
    | nil => exact absurd rfl hne
    | cons u us =>
      exact ⟨{ error := open_error.incompatible,
               closed_sources := srcs.map media_object.close },
             by simp [open_input, hcol, hrc]⟩

/-- Witness for C3: opening a URL no opener can resolve fails with an
`open_failure`. -/
theorem claim_C3_witness :
    ∃ f, open_input (fun _ => none) accept_all ["nosuch.mp4"] = Except.error f :=
  claim_C3.2.2.1 (fun _ => none) accept_all ["nosuch.mp4"] ⟨"nosuch.mp4", by simp, rfl⟩

/-- Claim C4: on every opened input (whose name vectors agree with the
per-source counts, as every successful open establishes), selecting a valid
global stream number `n` and then querying the template yields the
descriptor of unified-catalog entry `n`, for video and for audio alike. -/
theorem claim_C4 :
    (∀ (ou : String → Option media_object) (rc : List media_object → Bool)
       (urls : List String) (m : media_input),
       open_input ou rc urls = Except.ok m → m.counts_ok) ∧
    (∀ (m : media_input) (n : Nat), m.counts_ok → n < m.video_streams →
       ∃ d, m.video_catalog[n]? = some d ∧
         (m.select_video_stream n).video_frame_template = d) ∧
    (∀ (m : media_input) (n : Nat), m.counts_ok → n < m.audio_streams →
       ∃ d, m.audio_catalog[n]? = some d ∧
         (m.select_audio_stream n).audio_blob_template = d) := by
  refine ⟨?_, ?_, ?_⟩
  · intro ou rc urls m h
    obtain ⟨srcs, _, _, rfl⟩ := open_input_ok_elim ou rc urls m h
    exact build_counts_ok _ srcs
  · intro m n hok hn
    have hsum : n < m.video_counts.sum := by
      have hlen := hok.1
      unfold media_input.video_streams at hn
      omega
    have hs : (locate m.video_counts n).isSome := (locate_isSome_iff _ _).mpr hsum
    obtain ⟨p, hp⟩ := Option.isSome_iff_exists.mp hs
    obtain ⟨i, j⟩ := p
    have hloc : locate ((m._media_objects.map
        (fun s => s.video_stream_list.map Prod.snd)).map List.length) n = some (i, j) := by
      rw [← video_counts_as_lengths]
      exact hp
    obtain ⟨l, a, hl, ha, hcat⟩ := flatten_locate _ n i j hloc
    refine ⟨a, hcat, ?_⟩
    have hget : m.get_video_stream n = some (i, j) := hp
    simp only [media_input.select_video_stream, hget, media_input.video_frame_template]
    rw [List.getElem?_map] at hl
    cases hmo : m._media_objects[i]? with
    | none => rw [hmo] at hl; simp at hl
    | some s =>
      rw [hmo] at hl
      simp only [Option.map_some', Option.some.injEq] at hl
      unfold video_stream_template
      simp only [hmo, hl, ha]
  · intro m n hok hn
    have hsum : n < m.audio_counts.sum := by
      have hlen := hok.2
      unfold media_input.audio_streams at hn
      omega
    have hs : (locate m.audio_counts n).isSome := (locate_isSome_iff _ _).mpr hsum
    obtain ⟨p, hp⟩ := Option.isSome_iff_exists.mp hs
    obtain ⟨i, j⟩ := p
    have hloc : locate ((m._media_objects.map
        (fun s => s.audio_stream_list.map Prod.snd)).map List.length) n = some (i, j) := by
      rw [← audio_counts_as_lengths]
      exact hp
    obtain ⟨l, a, hl, ha, hcat⟩ := flatten_locate _ n i j hloc
    refine ⟨a, hcat, ?_⟩
    have hget : m.get_audio_stream n = some (i, j) := hp
    simp only [media_input.select_audio_stream, hget, media_input.audio_blob_template]
    rw [List.getElem?_map] at hl
    cases hmo : m._media_objects[i]? with
    | none => rw [hmo] at hl; simp at hl
    | some s =>
      rw [hmo] at hl
      simp only [Option.map_some', Option.some.injEq] at hl
      unfold audio_stream_template
      simp only [hmo, hl, ha]

/-- Witness for C4 at the two-file fixture: selecting global video stream 1
(the right eye) makes the template report catalog entry 1. -/
theorem claim_C4_witness :
    ∃ d, input2.video_catalog[1]? = some d ∧
      (input2.select_video_stream 1).video_frame_template = d :=
  claim_C4.2.1 input2 1 ⟨rfl, rfl⟩ (by decide)

/-- A finish that hands back an invalid frame leaves the channel `Ended`. -/
theorem finish_invalid_ended (m : media_input) (f : video_frame) (m2 : media_input)
    (h : m.finish_video_frame_read = some (f, m2)) (hf : f.valid = false) :
    m2.video_state = read_state.Ended := by
  unfold media_input.finish_video_frame_read at h
  cases hv : m.video_state
  · rw [hv] at h
    simp at h
  · rw [hv] at h
    simp only [] at h
    split at h
    · simp only [Option.some.injEq, Prod.mk.injEq] at h
      obtain ⟨hfe, hm⟩ := h
      exfalso
      rw [← hfe] at hf
      simp at hf
    · simp only [Option.some.injEq, Prod.mk.injEq] at h
      obtain ⟨hfe, hm⟩ := h
      subst hm
      rfl
  · rw [hv] at h
    simp only [Option.some.injEq, Prod.mk.injEq] at h
    obtain ⟨hfe, hm⟩ := h
    subst hm
    exact hv

/-- In the terminal `Ended` state a start/finish pair returns the invalid
frame and stays put. -/
theorem ended_read_pair (m : media_input) (h : m.video_state = read_state.Ended) :
    m.read_pair = some (invalid_frame, m) := by
  unfold media_input.read_pair
  have hst : m.start_video_frame_read = some m := by
    unfold media_input.start_video_frame_read
    rw [h]
  rw [hst]
  show m.finish_video_frame_read = some (invalid_frame, m)
  unfold media_input.finish_video_frame_read
  rw [h]

/-- From the terminal `Ended` state, every later pair yields the invalid
frame. -/
theorem ended_reads_from (k : Nat) : ∀ (m : media_input),
    m.video_state = read_state.Ended → reads_from m k = some invalid_frame := by
  induction k with
  | zero =>
    intro m h
    unfold reads_from
    rw [ended_read_pair m h]
    rfl
  | succ k ih =>
    intro m h
    unfold reads_from
    rw [ended_read_pair m h]
    exact ih m h

/-- Claim C5: end-of-stream is stable — once `finish_video_frame_read`
returns an invalid frame, every subsequent start/finish pair on the same
input (no seek or reopen intervening) also returns an invalid frame. -/
theorem claim_C5 : ∀ (m : media_input) (f : video_frame) (m2 : media_input),
    m.finish_video_frame_read = some (f, m2) → f.valid = false →
    ∀ k, ∃ g, reads_from m2 k = some g ∧ g.valid = false := by
  intro m f m2 h hf k
  have he := finish_invalid_ended m f m2 h hf
  exact ⟨invalid_frame, ended_reads_from k m2 he, rfl⟩

/-- Witness for C5: an input whose read returns end-of-stream keeps
returning invalid frames (checked three pairs on). -/
theorem claim_C5_witness :
    ∃ g, reads_from { media_input.initial with video_state := read_state.Ended } 3 =
        some g ∧ g.valid = false :=
  claim_C5 { media_input.initial with video_state := read_state.Reading } invalid_frame
    { media_input.initial with video_state := read_state.Ended } rfl rfl 3

/-- Claim C6: the stream resolver is a bijection between global indices in
range of the unified catalog and the pairs (source, local stream) of the
sources' streams, and fails exactly outside that range — for video and for
audio alike. -/
theorem claim_C6 :
    (∀ (m : media_input) (n : Nat),
       (m.get_video_stream n).isSome ↔ n < m.video_catalog.length) ∧
    (∀ (m : media_input) (n i j : Nat), m.get_video_stream n = some (i, j) →
       ∃ s, m._media_objects[i]? = some s ∧ j < s.video_stream_list.length) ∧
    (∀ (m : media_input) (n1 n2 : Nat) (p : Nat × Nat),
       m.get_video_stream n1 = some p → m.get_video_stream n2 = some p → n1 = n2) ∧
    (∀ (m : media_input) (i j : Nat) (s : media_object),
       m._media_objects[i]? = some s → j < s.video_stream_list.length →
       ∃ n, m.get_video_stream n = some (i, j)) ∧
    (∀ (m : media_input) (n : Nat),
       (m.get_audio_stream n).isSome ↔ n < m.audio_catalog.length) ∧
    (∀ (m : media_input) (n i j : Nat), m.get_audio_stream n = some (i, j) →
       ∃ s, m._media_objects[i]? = some s ∧ j < s.audio_stream_list.length) ∧
    (∀ (m : media_input) (n1 n2 : Nat) (p : Nat × Nat),
       m.get_audio_stream n1 = some p → m.get_audio_stream n2 = some p → n1 = n2) ∧
    (∀ (m : media_input) (i j : Nat) (s : media_object),
       m._media_objects[i]? = some s → j < s.audio_stream_list.length →
       ∃ n, m.get_audio_stream n = some (i, j)) := by
  refine ⟨?_, ?_, ?_, ?_, ?_, ?_, ?_, ?_⟩
  · intro m n
    rw [video_catalog_length]
    exact locate_isSome_iff m.video_counts n
  · intro m n i j h
    obtain ⟨c, hc, hj, _⟩ := locate_spec m.video_counts n i j h
    unfold media_input.video_counts at hc
    rw [List.getElem?_map] at hc
    cases hmo : m._media_objects[i]? with
    | none => rw [hmo] at hc; simp at hc
    | some s =>
      rw [hmo] at hc
      simp only [Option.map_some', Option.some.injEq] at hc
      exact ⟨s, rfl, by omega⟩
  · intro m n1 n2 p h1 h2
    exact locate_inj m.video_counts n1 n2 p h1 h2
  · intro m i j s hmo hj
    have hc : m.video_counts[i]? = some s.video_stream_list.length := by
      unfold media_input.video_counts
      rw [List.getElem?_map, hmo]
      rfl
    exact ⟨(m.video_counts.take i).sum + j,
           locate_at m.video_counts i j s.video_stream_list.length hc hj⟩
  · intro m n
    rw [audio_catalog_length]
    exact locate_isSome_iff m.audio_counts n
  · intro m n i j h
    obtain ⟨c, hc, hj, _⟩ := locate_spec m.audio_counts n i j h
    unfold media_input.audio_counts at hc
    rw [List.getElem?_map] at hc
    cases hmo : m._media_objects[i]? with
    | none => rw [hmo] at hc; simp at hc
    | some s =>
      rw [hmo] at hc
      simp only [Option.map_some', Option.some.injEq] at hc
      exact ⟨s, rfl, by omega⟩
  · intro m n1 n2 p h1 h2
    exact locate_inj m.audio_counts n1 n2 p h1 h2
  · intro m i j s hmo hj
    have hc : m.audio_counts[i]? = some s.audio_stream_list.length := by
      unfold media_input.audio_counts
      rw [List.getElem?_map, hmo]
      rfl
    exact ⟨(m.audio_counts.take i).sum + j,
           locate_at m.audio_counts i j s.audio_stream_list.length hc hj⟩

/-- Witness for C6: at the two-file fixture, the right eye's only stream
(source 1, local 0) is reachable from a global index. -/
theorem claim_C6_witness : ∃ n, input2.get_video_stream n = some (1, 0) :=
  claim_C6.2.2.2.1 input2 1 0 src_r rfl (by decide)

/-- Claim C7: a successful `set_stereo_layout` updates exactly the layout
tag and the swap flag of the cached video template; every other template
field and every other piece of input state is unchanged, and the sources
are not touched (no data is re-read). -/
theorem claim_C7 : ∀ (m : media_input) (layout : stereo_layout_t) (sw : Bool)
    (m2 : media_input), m.set_stereo_layout layout sw = (true, m2) →
    m2._video_frame.stereo_layout = layout ∧
    m2._video_frame.stereo_layout_swap = sw ∧
    m2._video_frame.width = m._video_frame.width ∧
    m2._video_frame.height = m._video_frame.height ∧
    m2._video_frame.aspect_num = m._video_frame.aspect_num ∧
    m2._video_frame.aspect_den = m._video_frame.aspect_den ∧
    m2._video_frame.presentation_time = m._video_frame.presentation_time ∧
    m2._video_frame.valid = m._video_frame.valid ∧
    m2._media_objects = m._media_objects ∧
    m2._active_video_stream = m._active_video_stream ∧
    m2._active_audio_stream = m._active_audio_stream ∧
    m2._video_stream_names = m._video_stream_names ∧
    m2._audio_stream_names = m._audio_stream_names ∧
    m2._initial_skip = m._initial_skip ∧
    m2._duration = m._duration ∧
    m2._audio_blob = m._audio_blob ∧
    m2.video_state = m.video_state ∧
    m2._supports_stereo_layout_separate = m._supports_stereo_layout_separate ∧
    m2._id = m._id ∧
    m2._tag_names = m._tag_names ∧
    m2._tag_values = m._tag_values := by
  intro m layout sw m2 h
  simp only [media_input.set_stereo_layout] at h
  split at h
  · simp only [Prod.mk.injEq] at h
    obtain ⟨_, hm⟩ := h
    subst hm
    exact ⟨rfl, rfl, rfl, rfl, rfl, rfl, rfl, rfl, rfl, rfl, rfl, rfl, rfl, rfl, rfl,
           rfl, rfl, rfl, rfl, rfl, rfl⟩
  · simp at h

/-- Witness for C7: accepting the top-bottom layout on the never-opened
input tags the template with that layout. -/
theorem claim_C7_witness :
    ((media_input.initial.set_stereo_layout stereo_layout_t.top_bottom true).2
      )._video_frame.stereo_layout = stereo_layout_t.top_bottom :=
  (claim_C7 media_input.initial stereo_layout_t.top_bottom true
    (media_input.initial.set_stereo_layout stereo_layout_t.top_bottom true).2 rfl).1

/-- Claim C8: `seek(pos)` appends `pos` to every open source's seek log
unconditionally — for any position, with no validation and no synchronous
error — and changes nothing else: read-channel state, selections, templates,
catalogs and timing are untouched. -/
theorem claim_C8 : ∀ (m : media_input) (pos : Int),
    (m.seek pos)._media_objects =
      m._media_objects.map (fun s => { s with seek_log := s.seek_log ++ [pos] }) ∧
    (m.seek pos)._media_objects.length = m._media_objects.length ∧
    (m.seek pos).video_state = m.video_state ∧
    (m.seek pos)._active_video_stream = m._active_video_stream ∧
    (m.seek pos)._active_audio_stream = m._active_audio_stream ∧
    (m.seek pos)._video_frame = m._video_frame ∧
    (m.seek pos)._audio_blob = m._audio_blob ∧
    (m.seek pos)._video_stream_names = m._video_stream_names ∧
    (m.seek pos)._audio_stream_names = m._audio_stream_names ∧
    (m.seek pos)._initial_skip = m._initial_skip ∧
    (m.seek pos)._duration = m._duration ∧
    (m.seek pos)._supports_stereo_layout_separate = m._supports_stereo_layout_separate ∧
    (m.seek pos)._id = m._id := by
  intro m pos
  refine ⟨rfl, ?_, rfl, rfl, rfl, rfl, rfl, rfl, rfl, rfl, rfl, rfl, rfl⟩
  simp [media_input.seek]

/-- Claim C9: `close` is idempotent and safe without a prior open — closing
a never-opened input changes nothing, a second close changes nothing more,
and after close no source is retained. -/
theorem claim_C9 : ∀ (m : media_input),
    (m.close).close = m.close ∧
    media_input.initial.close = media_input.initial ∧
    (m.close)._media_objects = [] ∧
    m.close = media_input.initial := by
  intro m
  exact ⟨rfl, rfl, rfl, rfl⟩

/-- Claim C10: under the precondition that the stream number is below the
stream count, the out-of-range branch of the embedded name lookup is
unreachable and the call returns the n-th catalog name — for video and for
audio alike. -/
theorem claim_C10 :
    (∀ (m : media_input) (n : Nat), n < m.video_streams →
       m.video_stream_name n = some (m._video_stream_names.getD n "")) ∧
    (∀ (m : media_input) (n : Nat), n < m.audio_streams →
       m.audio_stream_name n = some (m._audio_stream_names.getD n "")) := by
  constructor
  · intro m n h
    unfold media_input.video_streams at h
    unfold media_input.video_stream_name
    rw [List.getElem?_eq_getElem h, List.getD_eq_getElem?_getD,
      List.getElem?_eq_getElem h]
    rfl
  · intro m n h
    unfold media_input.audio_streams at h
    unfold media_input.audio_stream_name
    rw [List.getElem?_eq_getElem h, List.getD_eq_getElem?_getD,
      List.getElem?_eq_getElem h]
    rfl

/-- Witness for C10: the second stream name of the two-file fixture is
returned by the in-range lookup. -/
theorem claim_C10_witness :
    input2.video_stream_name 1 = some (input2._video_stream_names.getD 1 "") :=
  claim_C10.1 input2 1 (by decide)
